import Mathlib

/-!
Verification development for the patient-intake client of the
tailored-treatment-plan repository.

The Lean definitions below are a shallow embedding of the view-model layer:

* `Patient`, `Medication`, `FormState` and the add/remove/submit operations
  mirror `frontend/src/components/PatientForm.tsx`;
* `handleCreate`/`submitComposed` mirror the root composition in
  `frontend/src/App.tsx`;
* `SummaryState`/`onSummarize`/`normalizeSummaryData` mirror
  `frontend/src/components/SummaryPanel.tsx`;
* `PlanState`/`onGenerate` mirror `frontend/src/components/PlanPanel.tsx`
  (the variant imported by `App.tsx`).

Asynchronous backend calls are modelled by an environment record holding the
outcome (`Except ApiError _`) of each remote operation; every handler returns
its new component state together with the list of API calls it issued, in
issuance order.  JavaScript truthiness on optional strings (`x || d`) is
modelled by `jsOr`, which treats both `none` and the empty string as falsy.
-/

namespace TreatmentPlan

/-- JavaScript `x || d` on an optional string field: `undefined`/`null` and
the empty string are falsy, so both select the default `d`. -/
def jsOr (v : Option String) (d : String) : String :=
  match v with
  | none => d
  | some s => if s = "" then d else s

/-- JavaScript `String.prototype.trim()`: strips whitespace from both ends
(embedded over the string's character list so that it evaluates by `rfl`). -/
def jsTrim (s : String) : String :=
  ⟨((s.data.dropWhile Char.isWhitespace).reverse.dropWhile Char.isWhitespace).reverse⟩

/-! ## Patient data model (`frontend/src/lib` transfer shapes) -/

/-- A medication record `{name, dosage, adherence}`, all free text. -/
structure Medication where
  name : String
  dosage : String
  adherence : String
deriving DecidableEq, Repr

/-- The Patient transfer shape assembled client-side by the form.
`geneticMarkers` and `lifestyle` are JavaScript objects; they are embedded as
association lists whose insertion (`upsert`) keeps the position of an existing
key, exactly like `{ ...obj, [k]: v }`. -/
structure Patient where
  patientId : String
  age : Nat
  gender : String
  primaryCondition : String
  comorbidities : List String
  geneticMarkers : List (String × String)
  lifestyle : List (String × String)
  currentMedications : List Medication
deriving DecidableEq, Repr

/-- The initial empty Patient used by `useState` and by the post-submit
reset in `PatientForm.tsx`. -/
def emptyPatient : Patient :=
  { patientId := ""
    age := 0
    gender := ""
    primaryCondition := ""
    comorbidities := []
    geneticMarkers := []
    lifestyle := []
    currentMedications := [] }

/-- Required-field presence for the four scalar fields, per the spec's
"`patientId`, `age`, `gender`, `primaryCondition` all non-empty/non-zero". -/
def requiredPresent (p : Patient) : Prop :=
  p.patientId ≠ "" ∧ p.age ≠ 0 ∧ p.gender ≠ "" ∧ p.primaryCondition ≠ ""

instance (p : Patient) : Decidable (requiredPresent p) := by
  unfold requiredPresent; infer_instance

/-! ## JavaScript collection helpers -/

/-- `Array.from(new Set(l))`: removes duplicates keeping the first
occurrence of each element, preserving insertion order. -/
def dedupFirst : List String → List String
  | [] => []
  | x :: xs => x :: dedupFirst (xs.filter (· ≠ x))
termination_by l => l.length
decreasing_by
  simp only [List.length_cons]
  exact Nat.lt_succ_of_le (List.length_filter_le _ _)

/-- Object spread insertion `{ ...obj, [k]: v }`: replaces the value of an
existing key in place, otherwise appends the new key at the end. -/
def upsert (k v : String) : List (String × String) → List (String × String)
  | [] => [(k, v)]
  | (k', v') :: rest => if k' = k then (k, v) :: rest else (k', v') :: upsert k v rest

/-- Key deletion by object destructuring `const { [key]: _, ...rest } = obj`. -/
def removeKey (k : String) (l : List (String × String)) : List (String × String) :=
  l.filter (fun e => e.1 ≠ k)

/-- `list.filter((_, i) => i !== index)`: removal by position. -/
def removeAt (i : Nat) (l : List String) : List String :=
  (l.enum.filter (fun e => e.1 ≠ i)).map (·.2)

/-- `list.filter((_, i) => i !== index)` for the medication list. -/
def removeMedAt (i : Nat) (l : List Medication) : List Medication :=
  (l.enum.filter (fun e => e.1 ≠ i)).map (·.2)

/-! ## Patient form state (`PatientForm.tsx`) -/

/-- The form component's `useState` hooks: the Patient draft, the four
ephemeral input buffers, and the `loading` flag. -/
structure FormState where
  patient : Patient
  markerKey : String
  markerValue : String
  lifeKey : String
  lifeValue : String
  med : Medication
  comorbidityInput : String
  loading : Bool
deriving DecidableEq, Repr

/-- Initial form state: empty draft, empty buffers, not loading. -/
def initialForm : FormState :=
  { patient := emptyPatient
    markerKey := ""
    markerValue := ""
    lifeKey := ""
    lifeValue := ""
    med := { name := "", dosage := "", adherence := "" }
    comorbidityInput := ""
    loading := false }

/-- `addComorbidity` in `PatientForm.tsx`: trims the comorbidity buffer,
returns unchanged on blank input, otherwise inserts with Set dedup and
clears the buffer. -/
def addComorbidity (s : FormState) : FormState :=
  let value := jsTrim s.comorbidityInput
  if value = "" then s
  else
    { s with
      patient := { s.patient with
        comorbidities := dedupFirst (s.patient.comorbidities ++ [value]) }
      comorbidityInput := "" }

/-- `removeComorbidity(index)`: positional removal from the comorbidity list. -/
def removeComorbidity (i : Nat) (s : FormState) : FormState :=
  { s with patient := { s.patient with
      comorbidities := removeAt i s.patient.comorbidities } }

/-- `addMarker`: no-op on blank key; otherwise upserts the trimmed key with
the (untrimmed) value and clears both buffers. -/
def addMarker (s : FormState) : FormState :=
  if jsTrim s.markerKey = "" then s
  else
    { s with
      patient := { s.patient with
        geneticMarkers := upsert (jsTrim s.markerKey) s.markerValue s.patient.geneticMarkers }
      markerKey := ""
      markerValue := "" }

/-- `removeMarker(key)`: deletes the key from the marker map. -/
def removeMarker (k : String) (s : FormState) : FormState :=
  { s with patient := { s.patient with
      geneticMarkers := removeKey k s.patient.geneticMarkers } }

/-- `addLifestyle`: same upsert pattern as `addMarker`. -/
def addLifestyle (s : FormState) : FormState :=
  if jsTrim s.lifeKey = "" then s
  else
    { s with
      patient := { s.patient with
        lifestyle := upsert (jsTrim s.lifeKey) s.lifeValue s.patient.lifestyle }
      lifeKey := ""
      lifeValue := "" }

/-- `removeLifestyle(key)`: deletes the key from the lifestyle map. -/
def removeLifestyle (k : String) (s : FormState) : FormState :=
  { s with patient := { s.patient with
      lifestyle := removeKey k s.patient.lifestyle } }

/-- `addMedication`: no-op when the buffered medication name is blank;
otherwise appends the buffer and resets it to empty fields. -/
def addMedication (s : FormState) : FormState :=
  if jsTrim s.med.name = "" then s
  else
    { s with
      patient := { s.patient with
        currentMedications := s.patient.currentMedications ++ [s.med] }
      med := { name := "", dosage := "", adherence := "" } }

/-- `removeMedication(index)`: positional removal from the medication list. -/
def removeMedication (i : Nat) (s : FormState) : FormState :=
  { s with patient := { s.patient with
      currentMedications := removeMedAt i s.patient.currentMedications } }

/-! ## API surface

`frontend/src/lib/api` itself is not part of the checked-in sources; the
request/response shapes below are modelled from the spec's §4.1/§6 contract
(`createPatient -> {message, patientId}`, `getPatient -> patient with optional
summaryData`, `summarizePatient -> {message, data}`, `getPlan`/`generatePlan
-> {plan: PlanItem[]}`), with a field kept optional whenever the component
code guards on its truthiness.  A failed request carries an optional `detail`
string, as read by the components via `e?.response?.data?.detail`. -/

/-- One outbound API call, recorded in issuance order. -/
inductive ApiCall where
  | createPatient (p : Patient)
  | getPatient (id : String)
  | summarizePatient (id : String)
  | getPlan (id : String)
  | generatePlan (id : String)
  | chat (question : String)
deriving DecidableEq, Repr

/-- A request failure as observed by the components: the optional structured
`detail` message of the error response body. -/
structure ApiError where
  detail : Option String
deriving DecidableEq, Repr

/-- Modelled from the spec: `createPatient(patient) -> {message, patientId}`. -/
structure CreateResp where
  message : String
  patientId : String
deriving DecidableEq, Repr

/-- A treatment-plan item `{recommendation, justification}`. -/
structure PlanItem where
  recommendation : String
  justification : String
deriving DecidableEq, Repr

/-- The raw `SummaryData` payload as received from the backend, every
optional field still possibly absent (`SummaryPanel.tsx` reads them through
`data.field || default`). -/
structure SummaryJson where
  summary : Option String
  riskFactors : Option (List String)
  clinicalInsights : Option (List String)
  urgencyLevel : Option String
  similarCases : Option (List String)
  similarSymptoms : Option (List String)
  timestamp : Option String
deriving DecidableEq, Repr

/-- The normalized `SummaryData` held in the Summary Panel's state. -/
structure SummaryData where
  summary : String
  riskFactors : List String
  clinicalInsights : List String
  urgencyLevel : String
  similarCases : List String
  timestamp : String
deriving DecidableEq, Repr

/-- Modelled from the spec: the `getPatient(id)` response is the patient
record with an optional precomputed `summaryData`; the Summary Panel only
reads that field. -/
structure PatientRecord where
  summaryData : Option SummaryJson
deriving DecidableEq, Repr

/-- Modelled from the spec: `summarizePatient(id) -> {message, data}`; the
`data` field is kept optional because `SummaryPanel.tsx` guards on
`if (res.data)` before adopting it. -/
structure SummarizeResp where
  message : String
  data : Option SummaryJson
deriving DecidableEq, Repr

/-- Modelled from the spec: `getPlan`/`generatePlan` respond with
`{plan: PlanItem[]}`; the field is kept optional because `PlanPanel.tsx`
guards on `existing.plan &&` and defaults with `res.plan || []`. -/
structure PlanResp where
  plan : Option (List PlanItem)
deriving DecidableEq, Repr

/-! ## Root composition (`App.tsx`) -/

/-- Toast severity in `App.tsx` (`'success' | 'error'`). -/
inductive ToastType where
  | success
  | error
deriving DecidableEq, Repr

/-- The single global toast slot (message text and severity). -/
structure Toast where
  message : String
  ttype : ToastType
deriving DecidableEq, Repr

/-- `handleCreate` in `App.tsx`: awaits `createPatient(patient)`; on success
shows a success toast, on failure catches the error and shows
`e?.response?.data?.detail || 'Failed to save patient. Please try again.'`
as an error toast.  Because both branches are caught, the promise returned
to the form always fulfills — hence the `Except.ok ()` in both cases.
Returns (outcome of the promise handed to the form, toast shown, calls). -/
def handleCreate (backend : Except ApiError CreateResp) (patient : Patient) :
    Except ApiError Unit × Toast × List ApiCall :=
  match backend with
  | Except.ok res =>
      (Except.ok (),
       { message := "✨ Successfully saved patient: " ++ res.patientId
         ttype := ToastType.success },
       [ApiCall.createPatient patient])
  | Except.error e =>
      (Except.ok (),
       { message := jsOr e.detail "Failed to save patient. Please try again."
         ttype := ToastType.error },
       [ApiCall.createPatient patient])

/-- `handleSubmit` in `PatientForm.tsx`: sets `loading := true`, awaits
`onCreate(patient)`; if that promise fulfills the draft is reset to the
initial empty Patient, if it rejects the reset is skipped; the `finally`
block always resets `loading`. -/
def handleSubmit (onCreateResult : Except ApiError Unit) (s : FormState) : FormState :=
  let s1 := { s with loading := true }
  match onCreateResult with
  | Except.ok _ => { s1 with patient := emptyPatient, loading := false }
  | Except.error _ => { s1 with loading := false }

/-- The composed submission path of the running app: the form's `onCreate`
prop is `App.handleCreate`, so `handleSubmit` awaits the already-caught
promise.  Returns (new form state, toast shown by the root, issued calls). -/
def submitComposed (backend : Except ApiError CreateResp) (s : FormState) :
    FormState × Toast × List ApiCall :=
  let (result, toast, calls) := handleCreate backend s.patient
  (handleSubmit result s, toast, calls)

/-- Clicking the `Save Patient` button in `PatientForm.tsx`: the button is
`disabled={loading}` only, and its `onClick` invokes `handleSubmit` directly
(the component renders no `form` element, so the inputs' `required`
attributes are never enforced).  Returns (new form state, toast if any,
issued calls). -/
def clickSave (backend : Except ApiError CreateResp) (s : FormState) :
    FormState × Option Toast × List ApiCall :=
  if s.loading then (s, none, [])
  else
    let (s', toast, calls) := submitComposed backend s
    (s', some toast, calls)

/-! ## Summary Panel (`SummaryPanel.tsx`, the variant imported by `App.tsx`) -/

/-- The Summary Panel's `useState` hooks (the cosmetic `activeTab` is
omitted; it does not affect the request lifecycle). -/
structure SummaryState where
  patientId : String
  loading : Bool
  summaryData : Option SummaryData
  error : Option String
deriving DecidableEq, Repr

/-- Backend outcomes visible to one `onSummarize` invocation, plus the
current time used for the `timestamp` default. -/
structure SummaryEnv where
  getPatientResp : Except ApiError PatientRecord
  summarizeResp : Except ApiError SummarizeResp
  now : String
deriving Repr

/-- The per-operation fallback message of the Summary Panel. -/
def summaryFallback : String :=
  "Failed to generate clinical summary. Please check patient ID and try again."

/-- `normalizeSummaryData` in `SummaryPanel.tsx`: defaults every missing
optional field (`summary || ''`, `riskFactors || []`,
`clinicalInsights || []`, `urgencyLevel || 'Low'`,
`similarCases || similarSymptoms || []`, `timestamp || now`).
JavaScript arrays are truthy even when empty, so the list fields use plain
`getD`; the string fields go through `jsOr`. -/
def normalizeSummaryData (now : String) (data : SummaryJson) : SummaryData :=
  { summary := jsOr data.summary ""
    riskFactors := data.riskFactors.getD []
    clinicalInsights := data.clinicalInsights.getD []
    urgencyLevel := jsOr data.urgencyLevel "Low"
    similarCases :=
      match data.similarCases with
      | some l => l
      | none => data.similarSymptoms.getD []
    timestamp := jsOr data.timestamp now }

/-- `onSummarize` in `SummaryPanel.tsx`: returns unchanged on a blank id;
otherwise clears error and summary, calls `getPatient(id)`, adopts an
existing `summaryData` if the record carries one, else calls
`summarizePatient(id)` and adopts `res.data` when present; any rejection
sets `detail || fallback` as the error; `loading` is always released. -/
def onSummarize (env : SummaryEnv) (s : SummaryState) : SummaryState × List ApiCall :=
  if jsTrim s.patientId = "" then (s, [])
  else
    let s1 : SummaryState := { s with loading := true, error := none, summaryData := none }
    match env.getPatientResp with
    | Except.error e =>
        ({ s1 with error := some (jsOr e.detail summaryFallback), loading := false },
         [ApiCall.getPatient s.patientId])
    | Except.ok record =>
        match record.summaryData with
        | some j =>
            ({ s1 with summaryData := some (normalizeSummaryData env.now j), loading := false },
             [ApiCall.getPatient s.patientId])
        | none =>
            match env.summarizeResp with
            | Except.error e =>
                ({ s1 with error := some (jsOr e.detail summaryFallback), loading := false },
                 [ApiCall.getPatient s.patientId, ApiCall.summarizePatient s.patientId])
            | Except.ok res =>
                match res.data with
                | some j =>
                    ({ s1 with
                        summaryData := some (normalizeSummaryData env.now j)
                        loading := false },
                     [ApiCall.getPatient s.patientId, ApiCall.summarizePatient s.patientId])
                | none =>
                    ({ s1 with loading := false },
                     [ApiCall.getPatient s.patientId, ApiCall.summarizePatient s.patientId])

/-- The Summary Panel's generate button is
`disabled={!patientId.trim() || loading}`. -/
def summaryGenerateDisabled (s : SummaryState) : Bool :=
  jsTrim s.patientId = "" || s.loading

/-! ## Plan Panel (`PlanPanel.tsx`, the variant imported by `App.tsx`) -/

/-- The Plan Panel's `useState` hooks. -/
structure PlanState where
  patientId : String
  loading : Bool
  plan : List PlanItem
  error : Option String
deriving DecidableEq, Repr

/-- Backend outcomes visible to one `onGenerate` invocation. -/
structure PlanEnv where
  getPlanResp : Except ApiError PlanResp
  generatePlanResp : Except ApiError PlanResp
deriving Repr

/-- The per-operation fallback message of the Plan Panel. -/
def planFallback : String := "Failed to generate plan"

/-- `onGenerate` in `PlanPanel.tsx`: clears error and plan (no blank-id
guard in this variant), calls `getPlan(id)`; adopts the existing plan iff
`existing.plan && existing.plan.length > 0`, else calls `generatePlan(id)`
and adopts `res.plan || []`; any rejection sets `detail || fallback`;
`loading` is always released. -/
def onGenerate (env : PlanEnv) (s : PlanState) : PlanState × List ApiCall :=
  let s1 : PlanState := { s with loading := true, error := none, plan := [] }
  match env.getPlanResp with
  | Except.error e =>
      ({ s1 with error := some (jsOr e.detail planFallback), loading := false },
       [ApiCall.getPlan s.patientId])
  | Except.ok existing =>
      if existing.plan.isSome ∧ (existing.plan.getD []).length > 0 then
        ({ s1 with plan := existing.plan.getD [], loading := false },
         [ApiCall.getPlan s.patientId])
      else
        match env.generatePlanResp with
        | Except.error e =>
            ({ s1 with error := some (jsOr e.detail planFallback), loading := false },
             [ApiCall.getPlan s.patientId, ApiCall.generatePlan s.patientId])
        | Except.ok res =>
            ({ s1 with plan := res.plan.getD [], loading := false },
             [ApiCall.getPlan s.patientId, ApiCall.generatePlan s.patientId])

/-- The Plan Panel's generate button is `disabled={!patientId || loading}`:
only the empty string is falsy, so a whitespace-only id does not disable. -/
def planGenerateDisabled (s : PlanState) : Bool :=
  s.patientId = "" || s.loading

/-- Typing `v` into the comorbidity input and pressing Add. -/
def addComorbidityValue (v : String) (s : FormState) : FormState :=
  addComorbidity { s with comorbidityInput := v }

/-- Frame agreement: the four scalar Patient fields are untouched. -/
def scalarsUnchanged (s t : FormState) : Prop :=
  t.patient.patientId = s.patient.patientId ∧
  t.patient.age = s.patient.age ∧
  t.patient.gender = s.patient.gender ∧
  t.patient.primaryCondition = s.patient.primaryCondition

/-- Frame: an operation may touch only the comorbidity list. -/
def framedExceptComorbidities (s t : FormState) : Prop :=
  scalarsUnchanged s t ∧
  t.patient.geneticMarkers = s.patient.geneticMarkers ∧
  t.patient.lifestyle = s.patient.lifestyle ∧
  t.patient.currentMedications = s.patient.currentMedications

/-- Frame: an operation may touch only the genetic-marker map. -/
def framedExceptMarkers (s t : FormState) : Prop :=
  scalarsUnchanged s t ∧
  t.patient.comorbidities = s.patient.comorbidities ∧
  t.patient.lifestyle = s.patient.lifestyle ∧
  t.patient.currentMedications = s.patient.currentMedications

/-- Frame: an operation may touch only the lifestyle map. -/
def framedExceptLifestyle (s t : FormState) : Prop :=
  scalarsUnchanged s t ∧
  t.patient.comorbidities = s.patient.comorbidities ∧
  t.patient.geneticMarkers = s.patient.geneticMarkers ∧
  t.patient.currentMedications = s.patient.currentMedications

/-- Frame: an operation may touch only the medication list. -/
def framedExceptMedications (s t : FormState) : Prop :=
  scalarsUnchanged s t ∧
  t.patient.comorbidities = s.patient.comorbidities ∧
  t.patient.geneticMarkers = s.patient.geneticMarkers ∧
  t.patient.lifestyle = s.patient.lifestyle

/-! ## Helper lemmas on `dedupFirst` -/

theorem mem_dedupFirst {x : String} : ∀ {l : List String}, x ∈ dedupFirst l ↔ x ∈ l := by
  intro l
  induction l using dedupFirst.induct with
  | case1 => simp [dedupFirst]
  | case2 y ys ih =>
      rw [dedupFirst]
      constructor
      · intro h
        rcases List.mem_cons.mp h with h | h
        · exact List.mem_cons.mpr (Or.inl h)
        · exact List.mem_cons.mpr (Or.inr (List.mem_filter.mp (ih.mp h)).1)
      · intro h
        rcases List.mem_cons.mp h with h | h
        · exact List.mem_cons.mpr (Or.inl h)
        · by_cases hxy : x = y
          · exact List.mem_cons.mpr (Or.inl hxy)
          · refine List.mem_cons.mpr (Or.inr (ih.mpr (List.mem_filter.mpr ⟨h, ?_⟩)))
            simp [hxy]

theorem count_dedupFirst_of_mem {v : String} :
    ∀ {l : List String}, v ∈ l → (dedupFirst l).count v = 1 := by
  intro l
  induction l using dedupFirst.induct with
  | case1 => intro h; simp at h
  | case2 y ys ih =>
      intro hv
      rw [dedupFirst]
      by_cases hvy : v = y
      · subst hvy
        have hnot : v ∉ dedupFirst (ys.filter (· ≠ v)) := by
          rw [mem_dedupFirst]
          simp [List.mem_filter]
        rw [List.count_cons_self, List.count_eq_zero.mpr hnot]
      · have hmem : v ∈ ys := by
          rcases List.mem_cons.mp hv with h | h
          · exact absurd h hvy
          · exact h
        rw [List.count_cons_of_ne hvy]
        exact ih (List.mem_filter.mpr ⟨hmem, by simp [hvy]⟩)

theorem dedupFirst_append_mem :
    ∀ (l : List String) (v : String), v ∈ l → dedupFirst (l ++ [v]) = dedupFirst l := by
  intro l
  induction l using dedupFirst.induct with
  | case1 => intro v hv; simp at hv
  | case2 y ys ih =>
      intro v hv
      rw [List.cons_append, dedupFirst, dedupFirst, List.filter_append]
      by_cases hvy : v = y
      · subst hvy
        simp
      · have hmem : v ∈ ys := by
          rcases List.mem_cons.mp hv with h | h
          · exact absurd h hvy
          · exact h
        have hfv : List.filter (· ≠ y) [v] = [v] := by simp [hvy]
        rw [hfv]
        rw [ih v (List.mem_filter.mpr ⟨hmem, by simp [hvy]⟩)]

theorem dedupFirst_idem : ∀ (l : List String), dedupFirst (dedupFirst l) = dedupFirst l := by
  intro l
  induction l using dedupFirst.induct with
  | case1 => simp [dedupFirst]
  | case2 y ys ih =>
      rw [dedupFirst, dedupFirst]
      congr 1
      have hself : (dedupFirst (ys.filter (· ≠ y))).filter (· ≠ y)
          = dedupFirst (ys.filter (· ≠ y)) := by
        apply List.filter_eq_self.mpr
        intro a ha
        have : a ∈ ys.filter (· ≠ y) := mem_dedupFirst.mp ha
        exact (List.mem_filter.mp this).2
      rw [hself, ih]

theorem addComorbidityValue_comorbidities (t : FormState) {v : String} (hv : jsTrim v ≠ "") :
    (addComorbidityValue v t).patient.comorbidities =
      dedupFirst (t.patient.comorbidities ++ [jsTrim v]) := by
  simp [addComorbidityValue, addComorbidity, hv]

/-! ## Claim theorems -/

/-- C9: adding a comorbidity is idempotent on the value — for every non-blank
input, adding the same value twice yields a comorbidity set containing it
exactly once (case-sensitive dedup), and a second identical add leaves the
set unchanged; adding blank/whitespace-only input leaves the draft
unchanged. -/
theorem comorbidity_add_idempotent (s : FormState) (v : String) :
    (jsTrim v ≠ "" →
      ((addComorbidityValue v (addComorbidityValue v s)).patient.comorbidities.count
          (jsTrim v) = 1 ∧
       (addComorbidityValue v (addComorbidityValue v s)).patient.comorbidities =
         (addComorbidityValue v s).patient.comorbidities)) ∧
    (jsTrim v = "" → (addComorbidityValue v s).patient = s.patient) := by
  constructor
  · intro hv
    set w := jsTrim v with hw
    have h1 : (addComorbidityValue v s).patient.comorbidities =
        dedupFirst (s.patient.comorbidities ++ [w]) :=
      addComorbidityValue_comorbidities s hv
    have h2 : (addComorbidityValue v (addComorbidityValue v s)).patient.comorbidities =
        dedupFirst (dedupFirst (s.patient.comorbidities ++ [w]) ++ [w]) := by
      rw [addComorbidityValue_comorbidities _ hv, h1]
    have hmem : w ∈ dedupFirst (s.patient.comorbidities ++ [w]) :=
      mem_dedupFirst.mpr (List.mem_append_right _ (List.mem_singleton.mpr rfl))
    have hfix : dedupFirst (dedupFirst (s.patient.comorbidities ++ [w]) ++ [w]) =
        dedupFirst (s.patient.comorbidities ++ [w]) := by
      rw [dedupFirst_append_mem _ _ hmem, dedupFirst_idem]
    constructor
    · rw [h2, hfix]
      exact count_dedupFirst_of_mem (List.mem_append_right _ (List.mem_singleton.mpr rfl))
    · rw [h2, hfix, h1]
  · intro hv
    simp [addComorbidityValue, addComorbidity, hv]

/-- C9 witness: adding "Diabetes" twice to the fresh form leaves exactly one
occurrence in the comorbidity set. -/
theorem comorbidity_add_idempotent_witness :
    jsTrim "Diabetes" ≠ "" ∧
    (addComorbidityValue "Diabetes"
        (addComorbidityValue "Diabetes" initialForm)).patient.comorbidities.count
      (jsTrim "Diabetes") = 1 := by
  refine ⟨by decide, ?_⟩
  exact ((comorbidity_add_idempotent initialForm "Diabetes").1 (by decide)).1

/-- C10: every add/remove operation on one sub-collection of the Patient
draft modifies only that sub-collection (plus its own input buffers): the
four scalar fields and the other three sub-collections are unchanged. -/
theorem subcollection_ops_frame (s : FormState) (i : Nat) (k : String) :
    framedExceptComorbidities s (addComorbidity s) ∧
    framedExceptComorbidities s (removeComorbidity i s) ∧
    framedExceptMarkers s (addMarker s) ∧
    framedExceptMarkers s (removeMarker k s) ∧
    framedExceptLifestyle s (addLifestyle s) ∧
    framedExceptLifestyle s (removeLifestyle k s) ∧
    framedExceptMedications s (addMedication s) ∧
    framedExceptMedications s (removeMedication i s) := by
  refine ⟨?_, ?_, ?_, ?_, ?_, ?_, ?_, ?_⟩
  all_goals
    simp only [framedExceptComorbidities, framedExceptMarkers, framedExceptLifestyle,
      framedExceptMedications, scalarsUnchanged, addComorbidity, removeComorbidity, addMarker,
      removeMarker, addLifestyle, removeLifestyle, addMedication, removeMedication]
  all_goals try split
  all_goals simp

/-- The single recommendation of the C6 scenario. -/
def planItemC6 : PlanItem :=
  { recommendation := "Increase dosage", justification := "Low adherence" }

/-- C6: with `getPlan('P1')` returning `{plan: []}` and `generatePlan('P1')`
returning one recommendation, the generate action calls `generatePlan` after
the empty fetch and the panel ends showing exactly that recommendation. -/
theorem plan_empty_fetch_then_generate :
    onGenerate
      { getPlanResp := Except.ok { plan := some [] }
        generatePlanResp := Except.ok { plan := some [planItemC6] } }
      { patientId := "P1", loading := false, plan := [], error := none }
    = ({ patientId := "P1", loading := false, plan := [planItemC6], error := none },
       [ApiCall.getPlan "P1", ApiCall.generatePlan "P1"]) := by
  decide

/-- A draft with all required fields present, used for C1/C2 evaluation. -/
def draftC1 : FormState :=
  { initialForm with patient :=
      { emptyPatient with
          patientId := "P7", age := 44, gender := "Female",
          primaryCondition := "Hypertension" } }

/-- C1 counterexample: with all required fields present and a failing backend
create call, the composed submission does not leave the draft unchanged —
the root `handleCreate` catches the rejection (after showing the error
toast), so the form's `await onCreate(patient)` fulfills and the draft is
reset to the initial empty Patient. -/
theorem submit_failure_resets_draft :
    requiredPresent draftC1.patient ∧
    (submitComposed (Except.error { detail := some "Database unavailable" }) draftC1).2.1.ttype
      = ToastType.error ∧
    (submitComposed (Except.error { detail := some "Database unavailable" }) draftC1).1.patient
      ≠ draftC1.patient := by
  exact ⟨by decide, by decide, by decide⟩

/-- C1 (amended): every composed submission with all required fields present
issues exactly one `createPatient` call; on success the draft resets and a
success toast is shown; on failure the error is caught by the root
composition and shown as an error toast (server detail or fallback), and —
because the root handler swallows the rejection — the draft is likewise
reset to the initial empty Patient; `loading` is released either way. -/
theorem submit_composed_behavior (s : FormState) (b : Except ApiError CreateResp)
    (_h : requiredPresent s.patient) :
    (submitComposed b s).2.2 = [ApiCall.createPatient s.patient] ∧
    (submitComposed b s).1.patient = emptyPatient ∧
    (submitComposed b s).1.loading = false ∧
    (∀ r, b = Except.ok r → (submitComposed b s).2.1.ttype = ToastType.success) ∧
    (∀ e, b = Except.error e →
      (submitComposed b s).2.1.ttype = ToastType.error ∧
      (submitComposed b s).2.1.message
        = jsOr e.detail "Failed to save patient. Please try again.") := by
  cases b with
  | ok r => simp [submitComposed, handleCreate, handleSubmit]
  | error e => simp [submitComposed, handleCreate, handleSubmit]

/-- C1 amended-claim witness at a concrete successful submission. -/
theorem submit_composed_behavior_witness :
    requiredPresent draftC1.patient ∧
    (submitComposed (Except.ok { message := "created", patientId := "P7" }) draftC1).1.patient
      = emptyPatient := by
  refine ⟨by decide, ?_⟩
  exact (submit_composed_behavior draftC1
    (Except.ok { message := "created", patientId := "P7" }) (by decide)).2.1

/-- C2 (code-bug evaluation): clicking `Save Patient` on the fresh form —
every required field empty — still issues the `createPatient` call:
`handleSubmit` has no required-field guard, the button's `onClick` invokes
it directly, and `PatientForm.tsx` renders no `form` element, so the inputs'
`required` attributes are never enforced. -/
theorem submit_unguarded_on_empty_draft :
    ¬ requiredPresent initialForm.patient ∧
    initialForm.loading = false ∧
    (clickSave (Except.error { detail := some "patientId required" }) initialForm).2.2
      = [ApiCall.createPatient emptyPatient] := by
  exact ⟨by decide, rfl, by decide⟩

/-- C3: every generate invocation on the Summary Panel with a non-blank id
calls `getPatient(id)` first; if the returned record already carries a
summary it is adopted and `summarizePatient` is never called (the only call
is the fetch); otherwise `summarizePatient(id)` is called exactly once and
its payload adopted. -/
theorem summary_read_through (env : SummaryEnv) (s : SummaryState)
    (hid : jsTrim s.patientId ≠ "") :
    ((onSummarize env s).2.head? = some (ApiCall.getPatient s.patientId)) ∧
    (∀ record j, env.getPatientResp = Except.ok record → record.summaryData = some j →
      (onSummarize env s).2 = [ApiCall.getPatient s.patientId] ∧
      (onSummarize env s).1.summaryData = some (normalizeSummaryData env.now j)) ∧
    (∀ record, env.getPatientResp = Except.ok record → record.summaryData = none →
      (onSummarize env s).2.count (ApiCall.summarizePatient s.patientId) = 1 ∧
      (∀ res j, env.summarizeResp = Except.ok res → res.data = some j →
        (onSummarize env s).1.summaryData = some (normalizeSummaryData env.now j))) := by
  unfold onSummarize
  rw [if_neg hid]
  rcases hgp : env.getPatientResp with e | record
  · simp [hgp]
  · rcases hsd : record.summaryData with _ | j
    · rcases hsr : env.summarizeResp with e | res
      · simp [hgp, hsd, hsr]
        rintro r j rfl hj
        simp [hsd] at hj
      · rcases hd : res.data with _ | j
        · simp [hgp, hsd, hsr, hd]
          constructor
          · rintro r j rfl hj
            simp [hsd] at hj
          · rintro r j rfl hj
            simp [hd] at hj
        · simp [hgp, hsd, hsr, hd]
          constructor
          · rintro r j' rfl hj
            simp [hsd] at hj
          · rintro r j' rfl hj
            rw [hd] at hj
            injection hj with hj
            rw [hj]
    · simp [hgp, hsd]
      rintro r j' rfl hj
      rw [hsd] at hj
      injection hj with hj
      rw [hj]

/-- A raw summary payload used by the concrete witnesses. -/
def summaryJsonW : SummaryJson :=
  { summary := some "Stable on current regimen"
    riskFactors := some ["Smoking"]
    clinicalInsights := none
    urgencyLevel := some "Medium"
    similarCases := none
    similarSymptoms := none
    timestamp := some "2026-01-01T00:00:00Z" }

/-- Environment whose patient record already carries a summary. -/
def summaryEnvCached : SummaryEnv :=
  { getPatientResp := Except.ok { summaryData := some summaryJsonW }
    summarizeResp := Except.ok { message := "generated", data := some summaryJsonW }
    now := "2026-01-02T00:00:00Z" }

/-- A fresh Summary Panel pointed at patient "P1". -/
def summaryStateP1 : SummaryState :=
  { patientId := "P1", loading := false, summaryData := none, error := none }

/-- C3 witness: with a cached summary on the record, the only call issued is
the fetch and the cached summary is adopted. -/
theorem summary_read_through_witness :
    (onSummarize summaryEnvCached summaryStateP1).2 = [ApiCall.getPatient "P1"] ∧
    (onSummarize summaryEnvCached summaryStateP1).1.summaryData
      = some (normalizeSummaryData "2026-01-02T00:00:00Z" summaryJsonW) := by
  have h := summary_read_through summaryEnvCached summaryStateP1 (by decide)
  exact h.2.1 { summaryData := some summaryJsonW } summaryJsonW rfl rfl

/-- C5: every settled generate invocation with a non-blank id leaves the
Summary Panel in exactly one of the two terminal states — success with an
adopted summary and no error, or error with a message and no summary — and
releases `loading`; the summarize response is assumed to conform to the
documented contract (`data` present on success). -/
theorem summary_settles_in_terminal_state (env : SummaryEnv) (s : SummaryState)
    (hid : jsTrim s.patientId ≠ "")
    (hwf : ∀ res, env.summarizeResp = Except.ok res → res.data.isSome) :
    (onSummarize env s).1.loading = false ∧
    (((onSummarize env s).1.summaryData.isSome ∧ (onSummarize env s).1.error = none) ∨
     ((onSummarize env s).1.summaryData = none ∧ (onSummarize env s).1.error.isSome)) := by
  unfold onSummarize
  rw [if_neg hid]
  rcases hgp : env.getPatientResp with e | record
  · simp [hgp]
  · rcases hsd : record.summaryData with _ | j
    · rcases hsr : env.summarizeResp with e | res
      · simp [hgp, hsd, hsr]
      · rcases hd : res.data with _ | j
        · have hcontra := hwf res hsr
          rw [hd] at hcontra
          simp at hcontra
        · simp [hgp, hsd, hsr, hd]
    · simp [hgp, hsd]

/-- Environment with no cached summary and a successful generation. -/
def summaryEnvFresh : SummaryEnv :=
  { getPatientResp := Except.ok { summaryData := none }
    summarizeResp := Except.ok { message := "generated", data := some summaryJsonW }
    now := "2026-01-02T00:00:00Z" }

/-- C5 witness at a concrete successful generation. -/
theorem summary_settles_in_terminal_state_witness :
    (onSummarize summaryEnvFresh summaryStateP1).1.loading = false ∧
    (((onSummarize summaryEnvFresh summaryStateP1).1.summaryData.isSome ∧
      (onSummarize summaryEnvFresh summaryStateP1).1.error = none) ∨
     ((onSummarize summaryEnvFresh summaryStateP1).1.summaryData = none ∧
      (onSummarize summaryEnvFresh summaryStateP1).1.error.isSome)) := by
  refine summary_settles_in_terminal_state summaryEnvFresh summaryStateP1 (by decide) ?_
  intro res h
  simp only [summaryEnvFresh] at h
  cases h
  rfl

/-- C7: every optional field missing in a generation response is replaced by
its default (`riskFactors=[]`, `clinicalInsights=[]`, `urgencyLevel='Low'`,
`similarCases=[]` — when the legacy `similarSymptoms` alias is also absent,
as it is in the documented response shape — and `timestamp=now`), and when
both backend calls succeed the panel never enters its error state: only
transport/HTTP failure can set it. -/
theorem summary_optional_defaults (now : String) (j : SummaryJson)
    (env : SummaryEnv) (s : SummaryState) (hid : jsTrim s.patientId ≠ "")
    (hget : ∃ record, env.getPatientResp = Except.ok record)
    (hsum : ∃ res, env.summarizeResp = Except.ok res) :
    (j.riskFactors = none → (normalizeSummaryData now j).riskFactors = []) ∧
    (j.clinicalInsights = none → (normalizeSummaryData now j).clinicalInsights = []) ∧
    (j.urgencyLevel = none → (normalizeSummaryData now j).urgencyLevel = "Low") ∧
    (j.similarCases = none → j.similarSymptoms = none →
      (normalizeSummaryData now j).similarCases = []) ∧
    (j.timestamp = none → (normalizeSummaryData now j).timestamp = now) ∧
    (onSummarize env s).1.error = none := by
  obtain ⟨record, hgp⟩ := hget
  obtain ⟨res, hsr⟩ := hsum
  refine ⟨?_, ?_, ?_, ?_, ?_, ?_⟩
  · intro h; simp [normalizeSummaryData, h]
  · intro h; simp [normalizeSummaryData, h]
  · intro h; simp [normalizeSummaryData, jsOr, h]
  · intro h1 h2; simp [normalizeSummaryData, h1, h2]
  · intro h; simp [normalizeSummaryData, jsOr, h]
  · unfold onSummarize
    rw [if_neg hid]
    rcases hsd : record.summaryData with _ | j'
    · rcases hd : res.data with _ | j'
      · simp [hgp, hsd, hsr, hd]
      · simp [hgp, hsd, hsr, hd]
    · simp [hgp, hsd]

/-- A generation payload with every optional field absent. -/
def summaryJsonBare : SummaryJson :=
  { summary := some "Stable"
    riskFactors := none
    clinicalInsights := none
    urgencyLevel := none
    similarCases := none
    similarSymptoms := none
    timestamp := none }

/-- Environment that generates the all-optional-fields-missing payload. -/
def summaryEnvBare : SummaryEnv :=
  { getPatientResp := Except.ok { summaryData := none }
    summarizeResp := Except.ok { message := "generated", data := some summaryJsonBare }
    now := "2026-01-02T00:00:00Z" }

/-- C7 witness: the all-missing payload is fully defaulted and the panel
ends without an error. -/
theorem summary_optional_defaults_witness :
    (normalizeSummaryData "2026-01-02T00:00:00Z" summaryJsonBare).riskFactors = [] ∧
    (normalizeSummaryData "2026-01-02T00:00:00Z" summaryJsonBare).urgencyLevel = "Low" ∧
    (normalizeSummaryData "2026-01-02T00:00:00Z" summaryJsonBare).timestamp
      = "2026-01-02T00:00:00Z" ∧
    (onSummarize summaryEnvBare summaryStateP1).1.error = none := by
  have h := summary_optional_defaults "2026-01-02T00:00:00Z" summaryJsonBare
    summaryEnvBare summaryStateP1 (by decide)
    ⟨{ summaryData := none }, rfl⟩
    ⟨{ message := "generated", data := some summaryJsonBare }, rfl⟩
  exact ⟨h.1 rfl, h.2.2.1 rfl, h.2.2.2.2.1 rfl, h.2.2.2.2.2⟩

/-- C8 counterexample: a failed `getPatient` whose response body carries the
(empty) detail string `""` is displayed as the per-operation fallback, not
verbatim — JavaScript `detail || fallback` treats the empty string as
falsy. -/
theorem error_detail_empty_fallback :
    (onSummarize
        { getPatientResp := Except.error { detail := some "" }
          summarizeResp := Except.ok { message := "", data := none }
          now := "T0" }
        summaryStateP1).1.error = some summaryFallback ∧
    summaryFallback ≠ "" := by
  exact ⟨by decide, by decide⟩

/-- C8 (amended): for every failed request the originating panel's error
state displays the server-supplied detail string verbatim when the body
carries a non-empty one; when the detail is absent or empty a fixed
per-operation fallback is shown; and every attempt that issues a request
first clears the previous error (the outcome is independent of it). -/
theorem error_display_and_clearing (envS : SummaryEnv) (s : SummaryState)
    (envP : PlanEnv) (t : PlanState) (hid : jsTrim s.patientId ≠ "") :
    (∀ e d, envS.getPatientResp = Except.error e → e.detail = some d → d ≠ "" →
      (onSummarize envS s).1.error = some d) ∧
    (∀ e, envS.getPatientResp = Except.error e → (e.detail = none ∨ e.detail = some "") →
      (onSummarize envS s).1.error = some summaryFallback) ∧
    (∀ record e, envS.getPatientResp = Except.ok record → record.summaryData = none →
      envS.summarizeResp = Except.error e →
      (onSummarize envS s).1.error = some (jsOr e.detail summaryFallback)) ∧
    (∀ m, (onSummarize envS { s with error := some m }).1
      = (onSummarize envS { s with error := none }).1) ∧
    (∀ e d, envP.getPlanResp = Except.error e → e.detail = some d → d ≠ "" →
      (onGenerate envP t).1.error = some d) ∧
    (∀ e, envP.getPlanResp = Except.error e → (e.detail = none ∨ e.detail = some "") →
      (onGenerate envP t).1.error = some planFallback) ∧
    (∀ existing e, envP.getPlanResp = Except.ok existing →
      ¬(existing.plan.isSome ∧ (existing.plan.getD []).length > 0) →
      envP.generatePlanResp = Except.error e →
      (onGenerate envP t).1.error = some (jsOr e.detail planFallback)) ∧
    (∀ m, (onGenerate envP { t with error := some m }).1
      = (onGenerate envP { t with error := none }).1) := by
  refine ⟨?_, ?_, ?_, ?_, ?_, ?_, ?_, ?_⟩
  · rintro e d hgp hd hne
    unfold onSummarize
    rw [if_neg hid]
    simp [hgp, hd, jsOr, hne]
  · rintro e hgp (hd | hd)
    all_goals
      unfold onSummarize
      rw [if_neg hid]
      simp [hgp, hd, jsOr]
  · rintro record e hgp hsd hsr
    unfold onSummarize
    rw [if_neg hid]
    simp [hgp, hsd, hsr]
  · intro m
    unfold onSummarize
    rw [if_neg (show ¬ jsTrim ({ s with error := some m } : SummaryState).patientId = "" from hid)]
    rw [if_neg (show ¬ jsTrim ({ s with error := none } : SummaryState).patientId = "" from hid)]
  · rintro e d hgp hd hne
    unfold onGenerate
    simp [hgp, hd, jsOr, hne]
  · rintro e hgp (hd | hd)
    all_goals
      unfold onGenerate
      simp [hgp, hd, jsOr]
  · rintro existing e hgp hex hgen
    unfold onGenerate
    simp [hgp, hex, hgen]
  · intro m
    unfold onGenerate
    rcases hgp : envP.getPlanResp with e | existing
    · simp [hgp]
    · by_cases hex : existing.plan.isSome ∧ (existing.plan.getD []).length > 0
      · simp [hgp, hex]
      · rcases hgen : envP.generatePlanResp with e | res
        · simp [hgp, hex, hgen]
        · simp [hgp, hex, hgen]

/-- C8 witness: the spec's scenario — HTTP 400 with `{detail:"Patient not
found"}` on `getPatient` — displays exactly "Patient not found". -/
theorem error_display_and_clearing_witness :
    (onSummarize
        { getPatientResp := Except.error { detail := some "Patient not found" }
          summarizeResp := Except.ok { message := "", data := none }
          now := "T0" }
        summaryStateP1).1.error = some "Patient not found" := by
  have h := error_display_and_clearing
    { getPatientResp := Except.error { detail := some "Patient not found" }
      summarizeResp := Except.ok { message := "", data := none }
      now := "T0" }
    summaryStateP1
    { getPlanResp := Except.ok { plan := some [] }
      generatePlanResp := Except.ok { plan := some [] } }
    { patientId := "P1", loading := false, plan := [], error := none }
    (by decide)
  exact h.1 { detail := some "Patient not found" } "Patient not found" rfl rfl (by decide)

/-- C4 counterexample: a whitespace-only patient identifier is blank per the
claim, yet the Plan Panel's generate button stays enabled (`!patientId` is
falsy only for the empty string) and a generate action then issues network
calls starting with `getPlan(" ")`. -/
theorem whitespace_id_plan_enabled :
    jsTrim " " = "" ∧
    planGenerateDisabled { patientId := " ", loading := false, plan := [], error := none }
      = false ∧
    (onGenerate
        { getPlanResp := Except.ok { plan := some [] }
          generatePlanResp := Except.ok { plan := some [] } }
        { patientId := " ", loading := false, plan := [], error := none }).2
      = [ApiCall.getPlan " ", ApiCall.generatePlan " "] := by
  exact ⟨by decide, by decide, by decide⟩

/-- C4 (amended): for every blank identifier the Summary Panel's generate
button is disabled and its generate action issues zero calls; the Plan
Panel's button is disabled for the empty identifier, but for a
whitespace-only identifier (blank, yet non-empty) it stays enabled while
idle and a generate action then issues a `getPlan` call with that
identifier. -/
theorem blank_id_guards (envS : SummaryEnv) (envP : PlanEnv)
    (s : SummaryState) (t : PlanState) :
    (jsTrim s.patientId = "" →
      summaryGenerateDisabled s = true ∧ onSummarize envS s = (s, [])) ∧
    (t.patientId = "" → planGenerateDisabled t = true) ∧
    (jsTrim t.patientId = "" → t.patientId ≠ "" → t.loading = false →
      planGenerateDisabled t = false ∧
      (onGenerate envP t).2.head? = some (ApiCall.getPlan t.patientId)) := by
  refine ⟨?_, ?_, ?_⟩
  · intro h
    constructor
    · simp [summaryGenerateDisabled, h]
    · simp [onSummarize, h]
  · intro h
    simp [planGenerateDisabled, h]
  · intro _ hne hld
    constructor
    · simp [planGenerateDisabled, hne, hld]
    · unfold onGenerate
      rcases hgp : envP.getPlanResp with e | existing
      · simp [hgp]
      · by_cases hex : existing.plan.isSome ∧ (existing.plan.getD []).length > 0
        · simp [hgp, hex]
        · rcases hgen : envP.generatePlanResp with e | res
          · simp [hgp, hex, hgen]
          · simp [hgp, hex, hgen]

/-- C4 amended-claim witness: whitespace-only id — Summary disabled with no
calls, Plan enabled and issuing `getPlan(" ")` first. -/
theorem blank_id_guards_witness :
    (summaryGenerateDisabled
        { patientId := " ", loading := false, summaryData := none, error := none } = true ∧
     onSummarize summaryEnvFresh
        { patientId := " ", loading := false, summaryData := none, error := none }
      = ({ patientId := " ", loading := false, summaryData := none, error := none }, [])) ∧
    (planGenerateDisabled { patientId := " ", loading := false, plan := [], error := none }
      = false ∧
     (onGenerate
        { getPlanResp := Except.ok { plan := some [] }
          generatePlanResp := Except.ok { plan := some [] } }
        { patientId := " ", loading := false, plan := [], error := none }).2.head?
      = some (ApiCall.getPlan " ")) := by
  have h := blank_id_guards summaryEnvFresh
    { getPlanResp := Except.ok { plan := some [] }
      generatePlanResp := Except.ok { plan := some [] } }
    { patientId := " ", loading := false, summaryData := none, error := none }
    { patientId := " ", loading := false, plan := [], error := none }
  exact ⟨h.1 (by decide), h.2.2 (by decide) (by decide) rfl⟩

end TreatmentPlan
